import Mathlib

/-!
Verification of the lost_and_found_bot core against its specification.

The Python sources are shallowly embedded: Python strings become Lean
String, Python dicts become association lists, the unreliable backing
stores (Supabase / direct PostgreSQL / in-memory REPORTS map) are driven
by explicit failure-mode parameters, and datetime.now() is threaded as an
explicit argument.  Each definition mirrors one function of the source
tree (file and line numbers are given in the doc comments).
-/

namespace LostFoundBot

/-! ## Python string primitives -/

/-- Embedding of Python str.lower() (ASCII case mapping; the Burmese text
occurring in this code base has no case). -/
def pyLower (s : String) : String := String.mk (s.data.map Char.toLower)

/-- Embedding of Python str.upper(). -/
def pyUpper (s : String) : String := String.mk (s.data.map Char.toUpper)

/-- Embedding of the Python slice s[:n] (first n code points). -/
def pySlice (s : String) (n : Nat) : String := String.mk (s.data.take n)

/-- Auxiliary: does the first list start the second? -/
def hasPrefixL : List Char → List Char → Bool
  | [], _ => true
  | a :: as, hay =>
    match hay with
    | [] => false
    | b :: bs => a = b && hasPrefixL as bs

/-- Auxiliary: does the needle occur inside the haystack? -/
def containsL (needle : List Char) : List Char → Bool
  | [] => hasPrefixL needle []
  | b :: bs => hasPrefixL needle (b :: bs) || containsL needle bs

/-- Embedding of the Python substring test: needle in hay. -/
def strIn (needle hay : String) : Bool := containsL needle.data hay.data

/-- Auxiliary for pyWords: split a character list at whitespace, keeping
an accumulator for the current piece. -/
def splitWSAux : List Char → List Char → List String
  | [], acc => [String.mk acc.reverse]
  | c :: cs, acc =>
    if c.isWhitespace then String.mk acc.reverse :: splitWSAux cs []
    else splitWSAux cs (c :: acc)

/-- Embedding of Python str.split() with no argument: split on whitespace
runs, dropping empty pieces. -/
def pyWords (s : String) : List String := (splitWSAux s.data []).filter (· ≠ "")

/-- Embedding of Python str.strip(): remove leading and trailing
whitespace. -/
def pyStrip (s : String) : String :=
  String.mk (((s.data.dropWhile Char.isWhitespace).reverse.dropWhile Char.isWhitespace).reverse)

/-- Number of newline characters, as computed by Python text.count of a
newline. -/
def countNL (s : String) : Nat := s.data.count '\n'

/-- Embedding of the regex search for a decimal digit at
report_handlers.py line 349.  Python matches any Unicode decimal digit;
the inputs of this bot are ASCII and Myanmar digits, which is what we
model. -/
def pyIsDecimalDigit (c : Char) : Bool := c.isDigit || ('၀' ≤ c && c ≤ '၉')

/-! ## Input validation (report_handlers.py lines 307-380) -/

/-- The greeting exclusion list at report_handlers.py lines 333-337. -/
def commonGreetings : List String :=
  ["hello", "hi", "hey", "how are you", "test", "what", "why",
   "good morning", "good afternoon", "good evening", "help", "ဟယ်လို",
   "မင်္ဂလာပါ", "နေကောင်းလား", "ဘယ်လိုလဲ", "အကူအညီလိုတယ်", "စမ်းကြည့်တာ"]

/-- Keyword list for Missing Person reports (lines 354-355). -/
def mpKeywords : List String :=
  ["အမည်", "နာမည်", "အသက်", "ကျား", "မ", "တွေ့", "နေရာ", "ပျောက်",
   "name", "age", "male", "female", "location", "last seen", "missing"]

/-- Keyword list for Found Person reports (lines 357-358). -/
def fpKeywords : List String :=
  ["တွေ့", "ရှိ", "အသက်", "ကျား", "မ", "နေရာ", "အခြေအနေ",
   "found", "location", "condition", "age", "male", "female"]

/-- Keyword list for Request Rescue reports (lines 360-361). -/
def rrKeywords : List String :=
  ["ကယ်", "အကူအညီ", "တည်နေရာ", "လိပ်စာ", "ဒဏ်ရာ", "ပိတ်မိ", "အရေအတွက်",
   "rescue", "help", "location", "address", "injured", "trapped", "count", "people"]

/-- Keyword list for Offer Help reports (lines 363-364). -/
def ohKeywords : List String :=
  ["ကူညီ", "အကူအညီ", "ပေး", "တည်နေရာ", "ရရှိနိုင်",
   "help", "offer", "provide", "location", "available"]

/-- Embedding of validate_report_data (report_handlers.py lines 307-380). -/
def validate_report_data (text rt : String) : Bool :=
  if rt = "" then true
  else if text.length < 25 then false
  else if (pyWords text).length < 4 then false
  else if pyStrip (pyLower text) ∈ commonGreetings then false
  else if 2 ≤ countNL text ∨ 100 < text.length then true
  else if text.data.any pyIsDecimalDigit then true
  else
    let kwOpt : Option (List String) :=
      if strIn "Missing Person" rt then some mpKeywords
      else if strIn "Found Person" rt then some fpKeywords
      else if strIn "Request Rescue" rt then some rrKeywords
      else if strIn "Offer Help" rt then some ohKeywords
      else none
    match kwOpt with
    | none => true
    | some kws =>
      if kws.any (fun kw => strIn (pyLower kw) (pyLower text)) then true
      else if 75 < text.length then true
      else false

/-! ## Urgency classification (report_handlers.py lines 1101-1110) -/

/-- Embedding of determine_urgency, the free-text urgency fallback
classifier.  Note the Critical keyword is the two-word form with a space,
exactly as at line 1104 of the source. -/
def determine_urgency (text : String) : String :=
  let t := pyLower text
  if strIn "critical" t || strIn "emergency" t || strIn "urgent" t ||
      strIn "life threatening" t then
    "Critical (Medical Emergency)"
  else if strIn "high" t || strIn "trapped" t || strIn "injured" t then
    "High (Trapped/Missing)"
  else if strIn "medium" t || strIn "safe" t then
    "Medium (Safe but Separated)"
  else
    "Low (Information Only)"

/-! ## Report identifier generation -/

/-- Embedding of Report.generate_report_id (models/report.py lines 38-40):
the first eight characters of the canonical uuid4 string, uppercased.  The
uuid string is threaded as an argument since it is the randomness source. -/
def generate_report_id (uuidStr : String) : String := pyUpper (pySlice uuidStr 8)

/-- Embedding of the report-id construction at report_handlers.py lines
276-283 and 1782-1789: with a nonempty location prefix the id is the
uppercased prefix, a hyphen, and the first SIX characters of the uuid
string uppercased; without a prefix it is the first eight characters
uppercased. -/
def make_report_id (uuidStr : String) (locationCode : String) : String :=
  if locationCode ≠ "" then
    pyUpper locationCode ++ "-" ++ pyUpper (pySlice uuidStr 6)
  else
    pyUpper (pySlice uuidStr 8)

/-- The characters that can occur in the first eight positions of a
canonical uuid4 string (lowercase hexadecimal digits). -/
def hexChars : List Char := "0123456789abcdef".data

/-- An uppercase alphanumeric character, as the spec describes id
suffix characters. -/
def isUpperAlnum (c : Char) : Bool := ('A' ≤ c && c ≤ 'Z') || c.isDigit

/-! ## Small String lemmas for the embedding -/

theorem strMk_data (l : List Char) : (String.mk l).data = l := rfl

theorem strMk_length (l : List Char) : (String.mk l).length = l.length := rfl

theorem hex_toUpper_upperAlnum : ∀ c ∈ hexChars, isUpperAlnum c.toUpper = true := by decide

/-! ## Dynamic values and Python dicts -/

/-- A Python value as it occurs in the report records of this code base:
a string, an integer (Telegram user ids), or None. -/
inductive Value where
  | vStr : String → Value
  | vInt : Int → Value
  | vNone : Value
deriving DecidableEq, Repr

/-- A string-keyed association list: the embedding of a Python dict,
whose insertion order is the list order. -/
abbrev AList (α : Type) := List (String × α)

/-- Lookup in a dict: first binding of the key. -/
def aFind {α : Type} (d : AList α) (k : String) : Option α :=
  (d.find? (fun p => p.1 = k)).map (·.2)

/-- Membership test, as in the Python expression k in d. -/
def aHas {α : Type} (d : AList α) (k : String) : Bool := d.any (fun p => p.1 = k)

/-- Embedding of the Python assignment d[k] = v: replace in place when the
key exists, append otherwise. -/
def aSet {α : Type} (d : AList α) (k : String) (v : α) : AList α :=
  if aHas d k then d.map (fun p => if p.1 = k then (k, v) else p)
  else d ++ [(k, v)]

/-- A report record: the embedding of the Python dicts stored in the
primary table and the in-memory REPORTS map. -/
abbrev Dict := AList Value

/-- Embedding of Python d.get(k): None when the key is absent. -/
def dictGet (d : Dict) (k : String) : Value := (aFind d k).getD .vNone

/-- Embedding of Python d.get(k, dflt): the default only when the key is
absent. -/
def dictGetD (d : Dict) (k : String) (dflt : Value) : Value := (aFind d k).getD dflt

/-- The relevant fields of a Telegram user object, as read by
db_utils.py. -/
structure TgUser where
  id : Int
  username : Value
  firstName : Value
  lastName : Value
deriving DecidableEq, Repr

/-- The two storage tiers of the persistence facade: the primary
relational table (rows in insertion order) and the in-process REPORTS map
(db_utils.py line 63). -/
structure DbState where
  primary : List Dict
  reports : AList Dict
deriving DecidableEq, Repr

/-! ## save_report (db_utils.py lines 396-577) -/

/-- Behavior of the Supabase tier during one save: the insert succeeds
with data, executes but returns no data (line 426), raises (connectivity,
schema mismatch, timeout — caught at line 430), or the client was never
initialized (is_db_ready false). -/
inductive SupaMode where
  | ok | noData | raises | notReady
deriving DecidableEq, Repr

/-- Behavior of the direct-PostgreSQL tier during one save: no connection
could be established (line 437), the insert succeeds returning the row, the
insert returns no row (line 537), or the block raises (caught at
line 558). -/
inductive PgMode where
  | connNone
  | ok (hasPhotoUrl : Bool)
  | noRow
  | raises
deriving DecidableEq, Repr

/-- The report_id string of a report-data dict.  The callers always
supply this key (report_handlers.py line 452), which the model assumes. -/
def reportIdStr (rd : Dict) : String :=
  match dictGet rd "report_id" with
  | .vStr s => s
  | _ => ""

/-- The data dict built for the Supabase insert (db_utils.py lines
405-419), including the defaulted status field. -/
def supaData (rd : Dict) (u : TgUser) (now : String) : Dict :=
  [("report_id", dictGet rd "report_id"),
   ("report_type", dictGet rd "report_type"),
   ("all_data", dictGet rd "all_data"),
   ("urgency", dictGet rd "urgency"),
   ("photo_id", dictGet rd "photo_id"),
   ("photo_url", dictGet rd "photo_url"),
   ("photo_path", dictGet rd "photo_path"),
   ("location", dictGetD rd "location" (.vStr "Unknown")),
   ("user_id", .vInt u.id),
   ("username", u.username),
   ("created_at", .vStr now),
   ("updated_at", .vStr now),
   ("status", dictGetD rd "status" (.vStr "Still Missing"))]

/-- The record stored in the in-memory REPORTS map by the fallback paths
of save_report.  This is the dict literal at db_utils.py lines 540-556 and
561-575; it carries NO status key.  The conn-is-None branch at lines
440-455 would have stored a status, but its dict literal references the
undefined name report_date and raises NameError before the assignment, so
control passes to the handler at line 558 which stores this same
status-less record. -/
def memFallback (rd : Dict) (u : TgUser) (now : String) : Dict :=
  [("report_id", dictGet rd "report_id"),
   ("report_type", dictGet rd "report_type"),
   ("all_data", dictGet rd "all_data"),
   ("urgency", dictGet rd "urgency"),
   ("photo_id", dictGet rd "photo_id"),
   ("photo_url", dictGet rd "photo_url"),
   ("photo_path", dictGet rd "photo_path"),
   ("user_id", .vInt u.id),
   ("username", u.username),
   ("first_name", u.firstName),
   ("last_name", u.lastName),
   ("location", dictGetD rd "location" (.vStr "Unknown")),
   ("created_at", .vStr now)]

/-- The row produced by a successful direct-PostgreSQL insert with
RETURNING (db_utils.py lines 475-536): the inserted columns, with the
photo url and path present only when the column exists, and the status
column filled by the table default of Still Missing (DDL line 122). -/
def pgRow (hasPhotoUrl : Bool) (rd : Dict) (u : TgUser) (now : String) : Dict :=
  [("report_id", dictGet rd "report_id"),
   ("report_type", dictGet rd "report_type"),
   ("all_data", dictGet rd "all_data"),
   ("urgency", dictGet rd "urgency"),
   ("photo_id", dictGet rd "photo_id")] ++
  (if hasPhotoUrl then
    [("photo_url", dictGet rd "photo_url"), ("photo_path", dictGet rd "photo_path")]
   else []) ++
  [("user_id", .vInt u.id),
   ("username", u.username),
   ("first_name", u.firstName),
   ("last_name", u.lastName),
   ("location", dictGetD rd "location" (.vStr "Unknown")),
   ("created_at", .vStr now),
   ("updated_at", .vStr now),
   ("status", .vStr "Still Missing")]

/-- Embedding of save_report (db_utils.py lines 396-577).  Returns the
value save_report returns (None on failure) and the new store state. -/
def save_report (sm : SupaMode) (pm : PgMode) (rd : Dict) (u : TgUser) (now : String)
    (st : DbState) : Option Dict × DbState :=
  match sm with
  | .ok =>
      let data := supaData rd u now
      (some data, { st with primary := st.primary ++ [data] })
  | .noData =>
      (none, st)
  | .raises | .notReady =>
      match pm with
      | .ok hp =>
          let row := pgRow hp rd u now
          (some row, { st with primary := st.primary ++ [row] })
      | .connNone | .noRow | .raises =>
          let fb := memFallback rd u now
          (some fb, { st with reports := aSet st.reports (reportIdStr rd) fb })

/-! ## get_report (db_utils.py lines 746-773) -/

/-- Behavior of the Supabase tier during one read: the filter succeeds,
raises (caught at line 758), or the client is not ready. -/
inductive GetMode where
  | ok | raises | notReady
deriving DecidableEq, Repr

/-- Case-insensitive match of a stored report_id value against a query
id, as done by the ilike filter at db_utils.py line 753. -/
def valIdMatches (v : Value) (rid : String) : Bool :=
  match v with
  | .vStr s => pyUpper s = pyUpper rid
  | _ => false

/-- Embedding of get_report (db_utils.py lines 746-773): try the primary
store with a case-insensitive match, then scan the in-memory REPORTS map
in insertion order comparing uppercased keys. -/
def get_report (gm : GetMode) (st : DbState) (rid : String) : Option Dict :=
  let fromPrimary : Option Dict :=
    match gm with
    | .ok => st.primary.find? (fun row => valIdMatches (dictGet row "report_id") rid)
    | .raises | .notReady => none
  match fromPrimary with
  | some r => some r
  | none => (st.reports.find? (fun p => pyUpper p.1 = pyUpper rid)).map (·.2)

/-! ## update_report_status_in_db (db_utils.py lines 789-872) -/

/-- Behavior of the stores during one status update: the Supabase tier
works (db ready, calls succeed), the Supabase tier fails but a direct
PostgreSQL connection works, or both fail so only the in-memory map is
consulted (conn is None, line 825). -/
inductive UpdMode where
  | supa | pg | mem
deriving DecidableEq, Repr

/-- The status coercion at db_utils.py lines 792-794: empty, No status
set, and N/A are replaced by Still Missing before anything else runs. -/
def coerceStatus (s : String) : String :=
  if s = "" ∨ s = "No status set" ∨ s = "N/A" then "Still Missing" else s

/-- Does a stored row carry this report_id (exact match, as used by the
eq filters and SQL WHERE clauses of the update path)? -/
def rowIdIs (row : Dict) (rid : String) : Bool := dictGet row "report_id" = .vStr rid

/-- Does a stored row carry this report_id and this owner user_id? -/
def rowOwnedBy (row : Dict) (rid : String) (uid : Int) : Bool :=
  rowIdIs row rid && (dictGet row "user_id" = .vInt uid)

/-- Embedding of update_report_status_in_db (db_utils.py lines 789-872).
Returns the boolean result and the new store state. -/
def update_report_status_in_db (m : UpdMode) (rid status0 : String) (uid : Int)
    (now : String) (st : DbState) : Bool × DbState :=
  let status := coerceStatus status0
  match m with
  | .supa =>
      if st.primary.any (fun row => rowOwnedBy row rid uid) then
        let primary' := st.primary.map (fun row =>
          if rowIdIs row rid then aSet row "status" (.vStr status) else row)
        if st.primary.any (fun row => rowIdIs row rid) then
          let reports' :=
            if aHas st.reports rid then
              st.reports.map (fun p =>
                if p.1 = rid then (p.1, aSet p.2 "status" (.vStr status)) else p)
            else st.reports
          (true, ⟨primary', reports'⟩)
        else
          (false, ⟨primary', st.reports⟩)
      else (false, st)
  | .pg =>
      if st.primary.any (fun row => rowOwnedBy row rid uid) then
        let primary' := st.primary.map (fun row =>
          if rowIdIs row rid then
            aSet (aSet row "status" (.vStr status)) "updated_at" (.vStr now)
          else row)
        if st.primary.any (fun row => rowIdIs row rid) then (true, ⟨primary', st.reports⟩)
        else (false, ⟨primary', st.reports⟩)
      else (false, st)
  | .mem =>
      match aFind st.reports rid with
      | some r =>
          if dictGet r "user_id" = .vInt uid then
            (true, ⟨st.primary, st.reports.map (fun p =>
              if p.1 = rid then (p.1, aSet p.2 "status" (.vStr status)) else p)⟩)
          else (false, st)
      | none => (false, st)

/-! ## Conversation states and menu handlers -/

/-- Conversation state constants from config/states.py, and the
python-telegram-bot end-of-conversation sentinel. -/
def COLLECTING_DATA : Int := 2

def PHOTO : Int := 3

def SELECT_URGENCY : Int := 9

def CHOOSE_STATUS : Int := 11

def CHOOSING_REPORT_TYPE : Int := 0

def CONV_END : Int := -1

/-- The PRIORITIES glyph table from config/constants.py lines 16-21. -/
def PRIORITIES : AList String :=
  [("Critical (Medical Emergency)", "🔴"),
   ("High (Trapped/Missing)", "🟠"),
   ("Medium (Safe but Separated)", "🟡"),
   ("Low (Information Only)", "🟢")]

/-- The urgency menu mapping at report_handlers.py lines 387-397:
Burmese labels map to canonical English values, and the English values
map to themselves. -/
def urgencyMap : AList String :=
  [("အလွန်အရေးပေါ် (ဆေးကုသမှု လိုအပ်)", "Critical (Medical Emergency)"),
   ("အရေးပေါ် (ပိတ်မိနေ/ပျောက်ဆုံး)", "High (Trapped/Missing)"),
   ("အလယ်အလတ် (လုံခြုံသော်လည်း ကွဲကွာနေ)", "Medium (Safe but Separated)"),
   ("အရေးမကြီး (သတင်းအချက်အလက်သာ)", "Low (Information Only)"),
   ("Critical (Medical Emergency)", "Critical (Medical Emergency)"),
   ("High (Trapped/Missing)", "High (Trapped/Missing)"),
   ("Medium (Safe but Separated)", "Medium (Safe but Separated)"),
   ("Low (Information Only)", "Low (Information Only)")]

/-- The four-row urgency keyboard shown at report_handlers.py lines
286-291 and re-shown at lines 402-407. -/
def urgencyKeyboard : List (List String) :=
  [["အလွန်အရေးပေါ် (ဆေးကုသမှု လိုအပ်)"],
   ["အရေးပေါ် (ပိတ်မိနေ/ပျောက်ဆုံး)"],
   ["အလယ်အလတ် (လုံခြုံသော်လည်း ကွဲကွာနေ)"],
   ["အရေးမကြီး (သတင်းအချက်အလက်သာ)"]]

/-- The error reply shown for an invalid urgency selection
(report_handlers.py lines 414-418). -/
def invalidUrgencyReply : String :=
  "❌ ကျေးဇူးပြု၍ အောက်ပါ အရေးပေါ်အဆင့်များမှ တစ်ခုကို ရွေးချယ်ပါ:\n\nPlease select one of the urgency levels from the keyboard below:"

/-- The prompt and skip keyboard shown after a valid urgency selection
(report_handlers.py lines 424-440). -/
def photoPromptReply : String :=
  "အရေးပေါ်အဆင့် သတ်မှတ်ပြီးပါပြီ။\n\n📸 ဓာတ်ပုံရှိပါက ယခုပေးပို့နိုင်ပါသည်။\nမရှိပါက 'ဓာတ်ပုံ မရှိပါ' ခလုတ်ကိုနှိပ်ပါ။"

/-- The one-button skip keyboard of the photo step. -/
def photoKeyboard : List (List String) := [["ဓာတ်ပုံ မရှိပါ"]]

/-- The observable outcome of one select_urgency step: the conversation
state it returns, the urgency value written to the session (none when
nothing is written), the reply text, and the keyboard sent with it. -/
structure SelectUrgencyOutcome where
  nextState : Int
  storedUrgency : Option String
  reply : String
  keyboard : List (List String)
deriving DecidableEq, Repr

/-- Embedding of select_urgency (report_handlers.py lines 382-442). -/
def select_urgency (input : String) : SelectUrgencyOutcome :=
  match aFind urgencyMap input with
  | none => ⟨SELECT_URGENCY, none, invalidUrgencyReply, urgencyKeyboard⟩
  | some v => ⟨PHOTO, some v, photoPromptReply, photoKeyboard⟩

/-- The status menu mapping at report_handlers.py lines 1339-1345. -/
def statusMap : AList String :=
  [("ပျောက်ဆုံးဆဲ (Still Missing)", "Still Missing"),
   ("တွေ့ရှိပြီ (Found)", "Found"),
   ("ဆေးရုံရောက်ရှိနေ (Hospitalized)", "Hospitalized"),
   ("ကျဆုံးသွားပြီ (Deceased)", "Deceased"),
   ("အခြား (Other)", "Other")]

/-- Embedding of choose_status (report_handlers.py lines 1327-1379): the
stripped input is mapped through the status table WITH the input itself as
the default, the database update runs, and the handler returns to the main
menu on success or ends the conversation otherwise.  Returns the next
conversation state and the new store state. -/
def choose_status (rawInput : String) (sessionReportId : Option String) (uid : Int)
    (m : UpdMode) (now : String) (st : DbState) : Int × DbState :=
  match sessionReportId with
  | none => (CONV_END, st)
  | some rid =>
      let status := (aFind statusMap (pyStrip rawInput)).getD (pyStrip rawInput)
      let res := update_report_status_in_db m rid status uid now st
      (if res.1 then CHOOSING_REPORT_TYPE else CONV_END, res.2)

/-! ## Association-list lemmas -/

theorem aFind_cons {α : Type} (p : String × α) (d : AList α) (k : String) :
    aFind (p :: d) k = if p.1 = k then some p.2 else aFind d k := by
  by_cases h : p.1 = k
  · rw [if_pos h]
    unfold aFind
    rw [List.find?_cons_of_pos _ (by simp [h])]
    rfl
  · rw [if_neg h]
    unfold aFind
    rw [List.find?_cons_of_neg _ (by simp [h])]

theorem aHas_cons {α : Type} (p : String × α) (d : AList α) (k : String) :
    aHas (p :: d) k = (decide (p.1 = k) || aHas d k) := by
  simp [aHas, List.any_cons]

theorem aFind_map_set_self {α : Type} (d : AList α) (k : String) (v : α)
    (h : aHas d k = true) :
    aFind (d.map (fun p => if p.1 = k then (k, v) else p)) k = some v := by
  induction d with
  | nil => simp [aHas] at h
  | cons p ps ih =>
    by_cases hp : p.1 = k
    · simp [List.map_cons, if_pos hp, aFind_cons]
    · rw [aHas_cons] at h
      simp only [hp, decide_False, Bool.false_or] at h
      simp only [List.map_cons, if_neg hp, aFind_cons, hp, if_false]
      exact ih h

theorem aFind_map_set_ne {α : Type} (d : AList α) (k k' : String) (v : α)
    (hne : k' ≠ k) :
    aFind (d.map (fun p => if p.1 = k then (k, v) else p)) k' = aFind d k' := by
  induction d with
  | nil => rfl
  | cons p ps ih =>
    by_cases hp : p.1 = k
    · simp only [List.map_cons, if_pos hp, aFind_cons, hp]
      rw [if_neg (fun hk => hne hk.symm), if_neg (fun hk => hne hk.symm)]
      exact ih
    · simp only [List.map_cons, if_neg hp, aFind_cons]
      by_cases hp' : p.1 = k'
      · rw [if_pos hp', if_pos hp']
      · rw [if_neg hp', if_neg hp']
        exact ih

theorem aFind_append_single_self {α : Type} (d : AList α) (k : String) (v : α)
    (h : aHas d k = false) :
    aFind (d ++ [(k, v)]) k = some v := by
  induction d with
  | nil => simp [aFind_cons]
  | cons p ps ih =>
    rw [aHas_cons] at h
    simp only [Bool.or_eq_false_iff, decide_eq_false_iff_not] at h
    rw [List.cons_append, aFind_cons, if_neg h.1]
    exact ih h.2

theorem aFind_append_single_ne {α : Type} (d : AList α) (k k' : String) (v : α)
    (hne : k' ≠ k) :
    aFind (d ++ [(k, v)]) k' = aFind d k' := by
  induction d with
  | nil =>
    rw [List.nil_append, aFind_cons, if_neg (fun hk => hne hk.symm)]
  | cons p ps ih =>
    rw [List.cons_append, aFind_cons, aFind_cons]
    by_cases hp : p.1 = k'
    · rw [if_pos hp, if_pos hp]
    · rw [if_neg hp, if_neg hp]
      exact ih

theorem aFind_aSet_self {α : Type} (d : AList α) (k : String) (v : α) :
    aFind (aSet d k v) k = some v := by
  unfold aSet
  by_cases h : aHas d k = true
  · rw [if_pos h]
    exact aFind_map_set_self d k v h
  · rw [if_neg h]
    exact aFind_append_single_self d k v (by simpa using h)

theorem aFind_aSet_ne {α : Type} (d : AList α) (k k' : String) (v : α)
    (hne : k' ≠ k) :
    aFind (aSet d k v) k' = aFind d k' := by
  unfold aSet
  by_cases h : aHas d k = true
  · rw [if_pos h]
    exact aFind_map_set_ne d k k' v hne
  · rw [if_neg h]
    exact aFind_append_single_ne d k k' v hne

theorem aFind_map_setStatus (d : AList (AList Value)) (k : String) (v : Value) :
    aFind (d.map (fun p => if p.1 = k then (p.1, aSet p.2 "status" v) else p)) k =
      (aFind d k).map (fun r => aSet r "status" v) := by
  induction d with
  | nil => rfl
  | cons p ps ih =>
    by_cases hp : p.1 = k
    · simp [List.map_cons, if_pos hp, aFind_cons, hp]
    · simp only [List.map_cons, if_neg hp, aFind_cons, if_neg hp]
      exact ih

theorem find?_of_filter_eq_singleton {α : Type} {p : α → Bool} {l : List α} {r : α}
    (h : l.filter p = [r]) : l.find? p = some r := by
  induction l with
  | nil => simp at h
  | cons a as ih =>
    by_cases ha : p a = true
    · rw [List.filter_cons_of_pos ha] at h
      rw [List.cons.injEq] at h
      rw [List.find?_cons_of_pos _ ha, h.1]
    · rw [List.filter_cons_of_neg (by simpa using ha)] at h
      rw [List.find?_cons_of_neg _ (by simpa using ha)]
      exact ih h

theorem eq_of_filter_singleton_mem {α : Type} {p : α → Bool} {l : List α} {r x : α}
    (h : l.filter p = [r]) (hx : x ∈ l) (hpx : p x = true) : x = r := by
  have hmem : x ∈ l.filter p := List.mem_filter.mpr ⟨hx, hpx⟩
  rw [h] at hmem
  simpa using hmem

theorem mem_of_filter_eq_singleton {α : Type} {p : α → Bool} {l : List α} {r : α}
    (h : l.filter p = [r]) : r ∈ l ∧ p r = true := by
  have : r ∈ l.filter p := by rw [h]; exact List.mem_singleton_self r
  exact ⟨(List.mem_filter.mp this).1, (List.mem_filter.mp this).2⟩

/-! ## Theorems for claims C4, C6, C7 -/

/-- C4 counterexample: the claim says validate returns true for every
string longer than 100 characters, but a 101-character single word is
rejected by the word-count check at report_handlers.py lines 328-330. -/
theorem C4_counterexample :
    validate_report_data (String.mk (List.replicate 101 'a'))
      "Missing Person (Earthquake)" = false ∧
    100 < (String.mk (List.replicate 101 'a')).length := by decide

/-- C4 (amended): for every nonempty report type, validate returns false
for every string shorter than 25 characters; and validate returns true,
for every report type, for every string of length at least 25 with at
least 4 whitespace-separated words that is not exactly a known greeting
and that contains at least two newlines or is longer than 100
characters. -/
theorem C4_validate_amended (text rt : String) :
    (rt ≠ "" → text.length < 25 → validate_report_data text rt = false) ∧
    (25 ≤ text.length → 4 ≤ (pyWords text).length →
      pyStrip (pyLower text) ∉ commonGreetings →
      (2 ≤ countNL text ∨ 100 < text.length) →
      validate_report_data text rt = true) := by
  constructor
  · intro h1 h2
    unfold validate_report_data
    rw [if_neg h1, if_pos h2]
  · intro h1 h2 h3 h4
    unfold validate_report_data
    by_cases hrt : rt = ""
    · rw [if_pos hrt]
    · rw [if_neg hrt, if_neg (by omega), if_neg (by omega), if_neg h3, if_pos h4]

/-- C4 witness: the amended theorem applied at concrete inputs. -/
theorem C4_validate_amended_witness :
    validate_report_data "hi" "Missing Person (Earthquake)" = false ∧
    validate_report_data "Name: John Smith\nAge: 45\nLast seen at Hledan junction"
      "Missing Person (Earthquake)" = true :=
  ⟨(C4_validate_amended "hi" "Missing Person (Earthquake)").1 (by decide) (by decide),
   (C4_validate_amended "Name: John Smith\nAge: 45\nLast seen at Hledan junction"
       "Missing Person (Earthquake)").2
     (by decide) (by decide) (by decide) (Or.inl (by decide))⟩

/-- C6 counterexample: with a location prefix the generated id has a
six-character suffix, not an eight-character one as the claim states. -/
theorem C6_counterexample :
    make_report_id "123e4567-e89b-12d3-a456-426614174000" "YGN" = "YGN-123E45" ∧
    ¬ ∃ sfx : String, sfx.length = 8 ∧
        make_report_id "123e4567-e89b-12d3-a456-426614174000" "YGN" =
          "YGN" ++ "-" ++ sfx := by
  refine ⟨by decide, ?_⟩
  rintro ⟨sfx, hlen, heq⟩
  have h10 : (make_report_id "123e4567-e89b-12d3-a456-426614174000" "YGN").length = 10 := by
    decide
  rw [heq, String.length_append, String.length_append, hlen] at h10
  revert h10
  decide

/-- C6 (amended): the generated id is built from the uuid4 hexadecimal
characters uppercased; without a prefix it is a bare eight-character
uppercase alphanumeric string, and with a prefix it is the uppercased
prefix, a hyphen, and a SIX-character uppercase alphanumeric suffix. -/
theorem C6_report_id_amended (u loc : String)
    (hu : 8 ≤ u.data.length)
    (hhex : ∀ c ∈ u.data.take 8, c ∈ hexChars) :
    (loc = "" → (make_report_id u loc).length = 8 ∧
        ∀ c ∈ (make_report_id u loc).data, isUpperAlnum c = true) ∧
    (loc ≠ "" →
      make_report_id u loc = pyUpper loc ++ "-" ++ pyUpper (pySlice u 6) ∧
      (pyUpper (pySlice u 6)).length = 6 ∧
      ∀ c ∈ (pyUpper (pySlice u 6)).data, isUpperAlnum c = true) := by
  have key : ∀ n, n ≤ 8 → ∀ c ∈ (pyUpper (pySlice u n)).data, isUpperAlnum c = true := by
    intro n hn c hc
    simp only [pyUpper, pySlice, strMk_data] at hc
    rcases List.mem_map.mp hc with ⟨c', hc', rfl⟩
    apply hex_toUpper_upperAlnum
    apply hhex
    have htk : u.data.take n = (u.data.take 8).take n := by
      rw [List.take_take, min_eq_left hn]
    rw [htk] at hc'
    exact List.mem_of_mem_take hc'
  have hlen : ∀ n, n ≤ 8 → (pyUpper (pySlice u n)).length = n := by
    intro n hn
    simp only [pyUpper, pySlice, strMk_length, List.length_map, List.length_take]
    omega
  constructor
  · intro hloc
    subst hloc
    unfold make_report_id
    rw [if_neg (by simp)]
    exact ⟨hlen 8 le_rfl, key 8 le_rfl⟩
  · intro hloc
    unfold make_report_id
    rw [if_pos hloc]
    exact ⟨rfl, hlen 6 (by omega), key 6 (by omega)⟩

/-- C6 witness: the amended theorem applied at a concrete uuid string and
the prefix YGN (lowercased in the session data). -/
theorem C6_report_id_amended_witness :
    ("ygn" = "" →
      (make_report_id "123e4567-e89b-12d3-a456-426614174000" "ygn").length = 8 ∧
      ∀ c ∈ (make_report_id "123e4567-e89b-12d3-a456-426614174000" "ygn").data,
        isUpperAlnum c = true) ∧
    ("ygn" ≠ "" →
      make_report_id "123e4567-e89b-12d3-a456-426614174000" "ygn" =
        pyUpper "ygn" ++ "-" ++ pyUpper (pySlice "123e4567-e89b-12d3-a456-426614174000" 6) ∧
      (pyUpper (pySlice "123e4567-e89b-12d3-a456-426614174000" 6)).length = 6 ∧
      ∀ c ∈ (pyUpper (pySlice "123e4567-e89b-12d3-a456-426614174000" 6)).data,
        isUpperAlnum c = true) :=
  C6_report_id_amended "123e4567-e89b-12d3-a456-426614174000" "ygn"
    (by decide) (by decide)

/-- C7 counterexample: the claim lists the hyphenated keyword, but the
classifier at report_handlers.py line 1104 tests the two-word spaced form,
so a text containing only the hyphenated form falls through to Low. -/
theorem C7_counterexample :
    determine_urgency "life-threatening" = "Low (Information Only)" ∧
    determine_urgency "life-threatening" ≠ "Critical (Medical Emergency)" := by decide

/-- C7 (amended): the fallback classifier scans the lowercased text for
keyword sets in priority order with the first matching tier winning —
critical, emergency, urgent, or the spaced form of life threatening give
Critical; otherwise high, trapped or injured give High; otherwise medium
or safe give Medium; otherwise Low — and in particular the sentence about
a critical trapped emergency classifies as Critical. -/
theorem C7_urgency_amended (t : String) :
    ((strIn "critical" (pyLower t) || strIn "emergency" (pyLower t) ||
        strIn "urgent" (pyLower t) || strIn "life threatening" (pyLower t)) = true →
      determine_urgency t = "Critical (Medical Emergency)") ∧
    ((strIn "critical" (pyLower t) || strIn "emergency" (pyLower t) ||
        strIn "urgent" (pyLower t) || strIn "life threatening" (pyLower t)) = false →
      (strIn "high" (pyLower t) || strIn "trapped" (pyLower t) ||
        strIn "injured" (pyLower t)) = true →
      determine_urgency t = "High (Trapped/Missing)") ∧
    ((strIn "critical" (pyLower t) || strIn "emergency" (pyLower t) ||
        strIn "urgent" (pyLower t) || strIn "life threatening" (pyLower t)) = false →
      (strIn "high" (pyLower t) || strIn "trapped" (pyLower t) ||
        strIn "injured" (pyLower t)) = false →
      (strIn "medium" (pyLower t) || strIn "safe" (pyLower t)) = true →
      determine_urgency t = "Medium (Safe but Separated)") ∧
    ((strIn "critical" (pyLower t) || strIn "emergency" (pyLower t) ||
        strIn "urgent" (pyLower t) || strIn "life threatening" (pyLower t)) = false →
      (strIn "high" (pyLower t) || strIn "trapped" (pyLower t) ||
        strIn "injured" (pyLower t)) = false →
      (strIn "medium" (pyLower t) || strIn "safe" (pyLower t)) = false →
      determine_urgency t = "Low (Information Only)") ∧
    determine_urgency "This is a critical trapped emergency" =
      "Critical (Medical Emergency)" := by
  refine ⟨?_, ?_, ?_, ?_, by decide⟩
  · intro h1
    simp [determine_urgency, h1]
  · intro h1 h2
    simp [determine_urgency, h1, h2]
  · intro h1 h2 h3
    simp [determine_urgency, h1, h2, h3]
  · intro h1 h2 h3
    simp [determine_urgency, h1, h2, h3]

/-- C7 witness: the amended theorem applied at a concrete text reaching
the High tier. -/
theorem C7_urgency_amended_witness :
    determine_urgency "people trapped under rubble" = "High (Trapped/Missing)" :=
  (C7_urgency_amended "people trapped under rubble").2.1 (by decide) (by decide)

/-! ## Theorems for claims C1 and C2 (persistence facade save and get) -/

/-- A concrete finalized report, as built by finalize_report
(report_handlers.py lines 451-461), with its status field set. -/
def c1Report : Dict :=
  [("report_id", .vStr "R1"),
   ("report_type", .vStr "Missing Person (Earthquake)"),
   ("all_data", .vStr "Name: John Doe\nAge: 30\nLast seen: Hledan"),
   ("urgency", .vStr "High (Trapped/Missing)"),
   ("photo_id", .vNone), ("photo_url", .vNone), ("photo_path", .vNone),
   ("location", .vStr "Yangon"),
   ("status", .vStr "Found")]

/-- A concrete Telegram user. -/
def c1User : TgUser := ⟨7, .vStr "alice", .vStr "Alice", .vNone⟩

/-- A concrete timestamp standing for datetime.now().isoformat(). -/
def c1Now : String := "2026-04-05T12:00:00"

/-- C1: with the primary store failing on every operation (the Supabase
insert raises and no PostgreSQL connection can be made), save stores the
fallback record and returns it, and get finds exactly that record again —
but the record has NO status field at all, while the saved report carried
the status Found.  The round trip therefore does not preserve the record
including its status, contradicting the claim; the conn-is-None branch of
save_report even tries to store the status but misspells report_data as
report_date (db_utils.py line 449), raising NameError, after which the
handler at line 558 stores the status-less record. -/
theorem C1_fallback_drops_status :
    save_report .raises .connNone c1Report c1User c1Now ⟨[], []⟩ =
      (some (memFallback c1Report c1User c1Now),
       ⟨[], [("R1", memFallback c1Report c1User c1Now)]⟩) ∧
    get_report .raises ⟨[], [("R1", memFallback c1Report c1User c1Now)]⟩ "R1" =
      some (memFallback c1Report c1User c1Now) ∧
    dictGet (memFallback c1Report c1User c1Now) "status" = .vNone ∧
    dictGet c1Report "status" = .vStr "Found" := by decide

/-- A concrete report used for the C2 theorems. -/
def c2Report : Dict :=
  [("report_id", .vStr "R7"),
   ("report_type", .vStr "Request Rescue"),
   ("all_data", .vStr "Three people trapped at 123 Bogyoke Road"),
   ("urgency", .vStr "Critical (Medical Emergency)"),
   ("photo_id", .vNone), ("photo_url", .vNone), ("photo_path", .vNone),
   ("location", .vStr "Mandalay"),
   ("status", .vStr "Still Missing")]

/-- A concrete Telegram user for the C2 theorems. -/
def c2User : TgUser := ⟨12, .vStr "bob", .vStr "Bob", .vStr "Lee"⟩

/-- C2 counterexample: when the primary insert executes without raising
but returns no data, save_report returns None — a failure — and writes
nothing to the fallback table (db_utils.py lines 426-428), contradicting
the claim that save never returns a failure. -/
theorem C2_counterexample :
    save_report .noData .connNone c2Report c2User c1Now ⟨[], []⟩ =
      (none, ⟨[], []⟩) := by decide

/-- C2 (amended): when the Supabase tier raises (connectivity, schema
mismatch, timeout) or is not initialized, and the PostgreSQL tier also
fails (no connection, no returned row, or an exception), save_report
writes one fallback record keyed by report_id into the in-process table
and returns it as success — but that record omits the status field; and
when the primary insert merely returns no data, save_report returns None
without writing the fallback (see the counterexample). -/
theorem C2_save_fallback_amended (sm : SupaMode) (pm : PgMode) (rd : Dict)
    (u : TgUser) (now : String) (st : DbState)
    (hsm : sm = .raises ∨ sm = .notReady)
    (hpm : pm = .connNone ∨ pm = .noRow ∨ pm = .raises) :
    save_report sm pm rd u now st =
      (some (memFallback rd u now),
       { st with reports := aSet st.reports (reportIdStr rd) (memFallback rd u now) }) := by
  rcases hsm with rfl | rfl <;> rcases hpm with rfl | rfl | rfl <;> rfl

/-- C2 witness: the amended theorem applied at a concrete report, user
and store state. -/
theorem C2_save_fallback_amended_witness :
    save_report .notReady .noRow c2Report c2User c1Now ⟨[], []⟩ =
      (some (memFallback c2Report c2User c1Now),
       ⟨[], aSet ([] : AList Dict) (reportIdStr c2Report) (memFallback c2Report c2User c1Now)⟩) :=
  C2_save_fallback_amended .notReady .noRow c2Report c2User c1Now ⟨[], []⟩
    (Or.inr rfl) (Or.inr (Or.inl rfl))

/-! ## Theorems for claims C3 and C10 (status updates) -/

theorem rowIdIs_aSet_status (row : Dict) (rid : String) (v : Value) :
    rowIdIs (aSet row "status" v) rid = rowIdIs row rid := by
  unfold rowIdIs dictGet
  rw [aFind_aSet_ne row "status" "report_id" v (by decide)]

theorem rowIdIs_aSet_updated (row : Dict) (rid : String) (v : Value) :
    rowIdIs (aSet row "updated_at" v) rid = rowIdIs row rid := by
  unfold rowIdIs dictGet
  rw [aFind_aSet_ne row "updated_at" "report_id" v (by decide)]

theorem dictGet_aSet_status (row : Dict) (v : Value) :
    dictGet (aSet row "status" v) "status" = v := by
  unfold dictGet
  rw [aFind_aSet_self]
  rfl

theorem dictGet_status_aSet_updated (row : Dict) (v : Value) :
    dictGet (aSet row "updated_at" v) "status" = dictGet row "status" := by
  unfold dictGet
  rw [aFind_aSet_ne row "updated_at" "status" v (by decide)]

theorem coerceStatus_idem (s : String) :
    coerceStatus (coerceStatus s) = coerceStatus s := by
  by_cases h : s = "" ∨ s = "No status set" ∨ s = "N/A"
  · have h1 : coerceStatus s = "Still Missing" := by
      unfold coerceStatus
      rw [if_pos h]
    rw [h1]
    decide
  · have h1 : coerceStatus s = s := by
      unfold coerceStatus
      rw [if_neg h]
    rw [h1]
    exact h1

theorem update_coerce (m : UpdMode) (rid s : String) (uid : Int) (now : String)
    (st : DbState) :
    update_report_status_in_db m rid s uid now st =
      update_report_status_in_db m rid (coerceStatus s) uid now st := by
  simp only [update_report_status_in_db, coerceStatus_idem]

/-- The hypothesis that the tier consulted by a given mode stores exactly
one record under the report id, owned by A. -/
def ownerHyp (m : UpdMode) (st : DbState) (rid : String) (A : Int) : Prop :=
  match m with
  | .supa | .pg => ∃ r, st.primary.filter (fun row => rowIdIs row rid) = [r] ∧
      dictGet r "user_id" = .vInt A
  | .mem => ∃ r, aFind st.reports rid = some r ∧ dictGet r "user_id" = .vInt A

/-- The status stored for a report id in the tier a given mode writes. -/
def tierStatus (m : UpdMode) (st : DbState) (rid : String) : Option Value :=
  match m with
  | .supa | .pg =>
      (st.primary.find? (fun row => rowIdIs row rid)).map (fun row => dictGet row "status")
  | .mem => (aFind st.reports rid).map (fun r => dictGet r "status")

/-- C3 (amended): for any stored report with owner A, an update attempt
by any B distinct from A returns false and leaves the whole store
untouched; an update by A returns true and sets the stored status to the
coerced status — the requested value itself unless it is empty, No status
set, or N/A, in which case Still Missing is stored instead. -/
theorem C3_ownership_amended (m : UpdMode) (st : DbState) (rid s : String)
    (A B : Int) (now : String)
    (hAB : B ≠ A) (hown : ownerHyp m st rid A) :
    update_report_status_in_db m rid s B now st = (false, st) ∧
    (update_report_status_in_db m rid s A now st).1 = true ∧
    tierStatus m (update_report_status_in_db m rid s A now st).2 rid =
      some (.vStr (coerceStatus s)) := by
  have hvne : Value.vInt A ≠ Value.vInt B := by
    intro hcon
    rw [Value.vInt.injEq] at hcon
    exact hAB hcon.symm
  cases m with
  | mem =>
      rcases hown with ⟨r, hfind, howner⟩
      refine ⟨?_, ?_, ?_⟩
      · simp [update_report_status_in_db, hfind, howner, hvne]
      · simp [update_report_status_in_db, hfind, howner]
      · simp only [update_report_status_in_db, hfind, howner, tierStatus, if_true]
        rw [aFind_map_setStatus, hfind]
        simp [dictGet_aSet_status]
  | supa =>
      rcases hown with ⟨r, hfilter, howner⟩
      have hrmem := mem_of_filter_eq_singleton hfilter
      have hAnyA : st.primary.any (fun row => rowOwnedBy row rid A) = true := by
        rw [List.any_eq_true]
        exact ⟨r, hrmem.1, by simp [rowOwnedBy, hrmem.2, howner]⟩
      have hAnyB : st.primary.any (fun row => rowOwnedBy row rid B) = false := by
        rw [List.any_eq_false]
        intro x hx
        by_cases hid : rowIdIs x rid = true
        · have hxr : x = r := eq_of_filter_singleton_mem hfilter hx hid
          subst hxr
          simp [rowOwnedBy, hid, howner, hvne]
        · simp [rowOwnedBy, hid]
      have hAnyId : st.primary.any (fun row => rowIdIs row rid) = true := by
        rw [List.any_eq_true]
        exact ⟨r, hrmem.1, hrmem.2⟩
      refine ⟨?_, ?_, ?_⟩
      · simp [update_report_status_in_db, hAnyB]
      · simp [update_report_status_in_db, hAnyA, hAnyId]
      · simp only [update_report_status_in_db, hAnyA, hAnyId, if_true, tierStatus]
        have hpf : ((fun row => rowIdIs row rid) ∘
            (fun row => if rowIdIs row rid then
              aSet row "status" (.vStr (coerceStatus s)) else row)) =
            (fun row => rowIdIs row rid) := by
          funext row
          by_cases h : rowIdIs row rid = true
          · simp [Function.comp, h, rowIdIs_aSet_status]
          · simp [Function.comp, h]
        rw [List.find?_map, hpf, find?_of_filter_eq_singleton hfilter]
        simp [hrmem.2, dictGet_aSet_status]
  | pg =>
      rcases hown with ⟨r, hfilter, howner⟩
      have hrmem := mem_of_filter_eq_singleton hfilter
      have hAnyA : st.primary.any (fun row => rowOwnedBy row rid A) = true := by
        rw [List.any_eq_true]
        exact ⟨r, hrmem.1, by simp [rowOwnedBy, hrmem.2, howner]⟩
      have hAnyB : st.primary.any (fun row => rowOwnedBy row rid B) = false := by
        rw [List.any_eq_false]
        intro x hx
        by_cases hid : rowIdIs x rid = true
        · have hxr : x = r := eq_of_filter_singleton_mem hfilter hx hid
          subst hxr
          simp [rowOwnedBy, hid, howner, hvne]
        · simp [rowOwnedBy, hid]
      have hAnyId : st.primary.any (fun row => rowIdIs row rid) = true := by
        rw [List.any_eq_true]
        exact ⟨r, hrmem.1, hrmem.2⟩
      refine ⟨?_, ?_, ?_⟩
      · simp [update_report_status_in_db, hAnyB]
      · simp [update_report_status_in_db, hAnyA, hAnyId]
      · simp only [update_report_status_in_db, hAnyA, hAnyId, if_true, tierStatus]
        have hpf : ((fun row => rowIdIs row rid) ∘
            (fun row => if rowIdIs row rid then
              aSet (aSet row "status" (.vStr (coerceStatus s)))
                "updated_at" (.vStr now) else row)) =
            (fun row => rowIdIs row rid) := by
          funext row
          by_cases h : rowIdIs row rid = true
          · simp [Function.comp, h, rowIdIs_aSet_updated, rowIdIs_aSet_status]
          · simp [Function.comp, h]
        rw [List.find?_map, hpf, find?_of_filter_eq_singleton hfilter]
        simp [hrmem.2, dictGet_status_aSet_updated, dictGet_aSet_status]

/-- The store used by the C3 theorems: one in-memory report owned by
user 1. -/
def c3State : DbState :=
  ⟨[], [("R1", [("report_id", .vStr "R1"), ("user_id", .vInt 1),
                ("status", .vStr "Found")])]⟩

/-- C3 counterexample: the owner updates with the status N/A; the call
returns true but the stored status becomes Still Missing, not N/A, so the
claim that the stored status is changed to s for every s fails. -/
theorem C3_counterexample :
    update_report_status_in_db .mem "R1" "N/A" 1 "t1" c3State =
      (true, ⟨[], [("R1", [("report_id", .vStr "R1"), ("user_id", .vInt 1),
                           ("status", .vStr "Still Missing")])]⟩) ∧
    ("Still Missing" : String) ≠ "N/A" := by decide

/-- C3 witness: the amended theorem applied at the concrete in-memory
store with owner 1, intruder 2 and status Hospitalized. -/
theorem C3_ownership_amended_witness :
    update_report_status_in_db .mem "R1" "Hospitalized" 2 "t1" c3State =
      (false, c3State) ∧
    (update_report_status_in_db .mem "R1" "Hospitalized" 1 "t1" c3State).1 = true ∧
    tierStatus .mem (update_report_status_in_db .mem "R1" "Hospitalized" 1 "t1" c3State).2
        "R1" = some (.vStr (coerceStatus "Hospitalized")) :=
  C3_ownership_amended .mem c3State "R1" "Hospitalized" 1 2 "t1" (by decide)
    ⟨[("report_id", .vStr "R1"), ("user_id", .vInt 1), ("status", .vStr "Found")],
     by decide, by decide⟩

/-- The store used by the C10 witness. -/
def c10State : DbState :=
  ⟨[], [("R3", [("report_id", .vStr "R3"), ("user_id", .vInt 9),
                ("status", .vStr "Still Missing")])]⟩

/-- C10: the status-update operation silently replaces each of the three
sentinel request values — the empty string, No status set, and N/A — by
Still Missing before the ownership check and the write (the whole call
behaves exactly as a request for Still Missing); every call acts with the
coerced status, and the coerced status is never one of the three sentinel
values, so a successful update never stores them. -/
theorem C10_status_coercion (m : UpdMode) (rid s : String) (uid : Int) (now : String)
    (st : DbState)
    (hs : s = "" ∨ s = "No status set" ∨ s = "N/A") :
    update_report_status_in_db m rid s uid now st =
      update_report_status_in_db m rid "Still Missing" uid now st ∧
    coerceStatus s = "Still Missing" ∧
    (∀ s' : String, ∀ m' : UpdMode, ∀ rid' : String, ∀ uid' : Int, ∀ now' : String,
      ∀ st' : DbState,
      update_report_status_in_db m' rid' s' uid' now' st' =
        update_report_status_in_db m' rid' (coerceStatus s') uid' now' st') ∧
    (∀ s' : String, coerceStatus s' ≠ "" ∧ coerceStatus s' ≠ "No status set" ∧
      coerceStatus s' ≠ "N/A") := by
  have hcs : coerceStatus s = "Still Missing" := by
    unfold coerceStatus
    rw [if_pos hs]
  refine ⟨?_, hcs, ?_, ?_⟩
  · rw [update_coerce m rid s uid now st, hcs]
  · intro s' m' rid' uid' now' st'
    exact update_coerce m' rid' s' uid' now' st'
  · intro s'
    unfold coerceStatus
    by_cases h : s' = "" ∨ s' = "No status set" ∨ s' = "N/A"
    · rw [if_pos h]
      refine ⟨by decide, by decide, by decide⟩
    · rw [if_neg h]
      push_neg at h
      exact ⟨h.1, h.2.1, h.2.2⟩

/-- C10 witness: the theorem applied with the sentinel request N/A on a
concrete store. -/
theorem C10_status_coercion_witness :
    update_report_status_in_db .mem "R3" "N/A" 9 "t3" c10State =
      update_report_status_in_db .mem "R3" "Still Missing" 9 "t3" c10State ∧
    coerceStatus "N/A" = "Still Missing" :=
  ⟨(C10_status_coercion .mem "R3" "N/A" 9 "t3" c10State (by decide)).1,
   (C10_status_coercion .mem "R3" "N/A" 9 "t3" c10State (by decide)).2.1⟩

/-! ## Theorems for claims C5 and C9 (menu-constrained states) -/

/-- The store used by the C5 theorems: one in-memory report owned by
user 5. -/
def c5State : DbState :=
  ⟨[], [("R2", [("report_id", .vStr "R2"), ("user_id", .vInt 5),
                ("status", .vStr "Still Missing")])]⟩

/-- C5 counterexample: in the status-choice state the input banana
matches no menu option, yet choose_status does not re-display the menu —
it writes banana as the stored status and leaves the state (returning to
the main menu), contradicting the claim that no status value is stored
for such input. -/
theorem C5_counterexample :
    choose_status "banana" (some "R2") 5 .mem "t2" c5State =
      (CHOOSING_REPORT_TYPE,
       ⟨[], [("R2", [("report_id", .vStr "R2"), ("user_id", .vInt 5),
                     ("status", .vStr "banana")])]⟩) ∧
    CHOOSING_REPORT_TYPE ≠ CHOOSE_STATUS := by decide

/-- C5 (amended): the urgency-selection state is menu-constrained — any
input not matching a known option re-displays the same four-option menu
with an error-prefixed reply and stays in the same state without storing
anything — but the status-choice state is not: any input is mapped
through the status table with itself as the default and written to the
store, and the handler never returns to the status-choice state. -/
theorem C5_menu_amended (input rid : String) (uid : Int) (m : UpdMode) (now : String)
    (st : DbState)
    (hinv : aFind urgencyMap input = none) :
    select_urgency input = ⟨SELECT_URGENCY, none, invalidUrgencyReply, urgencyKeyboard⟩ ∧
    hasPrefixL "❌".data invalidUrgencyReply.data = true ∧
    (choose_status input (some rid) uid m now st).1 ≠ CHOOSE_STATUS ∧
    (choose_status input (some rid) uid m now st).2 =
      (update_report_status_in_db m rid
        ((aFind statusMap (pyStrip input)).getD (pyStrip input)) uid now st).2 := by
  refine ⟨?_, by decide, ?_, ?_⟩
  · unfold select_urgency
    rw [hinv]
  · unfold choose_status
    by_cases hok : (update_report_status_in_db m rid
        ((aFind statusMap (pyStrip input)).getD (pyStrip input)) uid now st).1 = true
    · simp [hok, CHOOSING_REPORT_TYPE, CHOOSE_STATUS]
    · simp [hok, CONV_END, CHOOSE_STATUS]
  · rfl

/-- C5 witness: the amended theorem applied at the concrete input banana
against the concrete store. -/
theorem C5_menu_amended_witness :
    select_urgency "banana" = ⟨SELECT_URGENCY, none, invalidUrgencyReply, urgencyKeyboard⟩ ∧
    hasPrefixL "❌".data invalidUrgencyReply.data = true ∧
    (choose_status "banana" (some "R2") 5 .mem "t2" c5State).1 ≠ CHOOSE_STATUS ∧
    (choose_status "banana" (some "R2") 5 .mem "t2" c5State).2 =
      (update_report_status_in_db .mem "R2"
        ((aFind statusMap (pyStrip "banana")).getD (pyStrip "banana")) 5 "t2" c5State).2 :=
  C5_menu_amended "banana" "R2" 5 .mem "t2" c5State (by decide)

/-- Every value of the urgency menu mapping is a key of the PRIORITIES
glyph table. -/
theorem urgencyMap_values_canonical :
    ∀ p ∈ urgencyMap, aHas PRIORITIES p.2 = true := by decide

/-- C9: whenever the urgency-selection step accepts an input and advances
(storing an urgency value in the session), the stored value is a key of
the PRIORITIES glyph table — one of the four canonical English strings. -/
theorem C9_urgency_canonical (input v : String)
    (h : (select_urgency input).storedUrgency = some v) :
    aHas PRIORITIES v = true := by
  unfold select_urgency at h
  cases hfind : aFind urgencyMap input with
  | none =>
      rw [hfind] at h
      simp at h
  | some w =>
      rw [hfind] at h
      simp only at h
      rw [Option.some.injEq] at h
      subst h
      unfold aFind at hfind
      rcases Option.map_eq_some'.mp hfind with ⟨q, hq, hq2⟩
      have hmem : q ∈ urgencyMap := List.mem_of_find?_eq_some hq
      rw [← hq2]
      exact urgencyMap_values_canonical q hmem

/-- C9 witness: the theorem applied at the Burmese Critical menu label. -/
theorem C9_urgency_canonical_witness :
    aHas PRIORITIES "Critical (Medical Emergency)" = true :=
  C9_urgency_canonical "အလွန်အရေးပေါ် (ဆေးကုသမှု လိုအပ်)"
    "Critical (Medical Emergency)" (by decide)

/-! ## The aggregate builder (report_handlers.py lines 1698-1773) and C8 -/

theorem strData_append (s t : String) : (s ++ t).data = s.data ++ t.data := rfl

theorem strData_empty : ("" : String).data = [] := rfl

/-- Embedding of Python form_data.get(k, dflt) for the string-valued
scratch fields collected along the guided path. -/
def fdGetD (d : AList String) (k dflt : String) : String := (aFind d k).getD dflt

/-- The conditional coordinate line of collect_contact_info (lines
1722-1723, 1738-1739, 1752-1753, 1765-1766): appended to the compiled
block only when the exact_coordinates field is present and differs from
the Not provided placeholder; otherwise the block is returned unchanged,
with no line for the field at all. -/
def addCoordLine (base label : String) (fd : AList String) : String :=
  match aFind fd "exact_coordinates" with
  | some c => if c ≠ "Not provided" then base ++ (label ++ c ++ "\n") else base
  | none => base

/-- Embedding of the details-block compilation in collect_contact_info
(report_handlers.py lines 1705-1773), applied to the form data after the
contact_info field was stored. -/
def compile_all_data (rt : String) (fd : AList String) : String :=
  if rt = "Missing Person (Earthquake)" then
    addCoordLine
      (("အမည်: " ++ fdGetD fd "name" "N/A" ++ "\n") ++
       ("အသက်: " ++ fdGetD fd "age" "N/A" ++ "\n") ++
       ("ကျား/မ: " ++ fdGetD fd "gender" "N/A" ++ "\n") ++
       ("ကိုယ်ခန္ဓာဖော်ပြချက်: " ++ fdGetD fd "description" "N/A" ++ "\n") ++
       ("နောက်ဆုံးတွေ့ရှိခဲ့သည့်နေရာ: " ++ fdGetD fd "last_seen_location" "N/A" ++ "\n") ++
       ("နောက်ဆုံးတွေ့ရှိခဲ့သည့်အချိန်: " ++ fdGetD fd "last_seen_time" "N/A" ++ "\n") ++
       ("ဆေးဝါးအခြေအနေ: " ++ fdGetD fd "medical_info" "N/A" ++ "\n") ++
       ("ဆက်သွယ်ရန်အချက်အလက်: " ++ fdGetD fd "contact_info" "N/A" ++ "\n"))
      "9. တိကျသော တည်နေရာ: " fd
  else if rt = "Found Person (Earthquake)" then
    addCoordLine
      (("တွေ့ရှိသူ၏ အမည်: " ++ fdGetD fd "name" "N/A" ++ "\n") ++
       ("ခန့်မှန်းအသက်: " ++ fdGetD fd "age" "N/A" ++ "\n") ++
       ("ကျား/မ: " ++ fdGetD fd "gender" "N/A" ++ "\n") ++
       ("ကိုယ်ခန္ဓာဖော်ပြချက်: " ++ fdGetD fd "description" "N/A" ++ "\n") ++
       ("တွေ့ရှိခဲ့သည့်နေရာ: " ++ fdGetD fd "last_seen_location" "N/A" ++ "\n") ++
       ("လက်ရှိတည်နေရာ/အခြေအနေ: " ++ fdGetD fd "current_location" "N/A" ++ "\n") ++
       ("ဒဏ်ရာရရှိမှု: " ++ fdGetD fd "injuries" "N/A" ++ "\n") ++
       ("ဆက်သွယ်ရန်အချက်အလက်: " ++ fdGetD fd "contact_info" "N/A" ++ "\n"))
      "တိကျသော တည်နေရာ: " fd
  else if rt = "Request Rescue" then
    addCoordLine
      (("ပိတ်မိနေသူ အရေအတွက်: " ++ fdGetD fd "people_count" "N/A" ++ "\n") ++
       ("တိကျသော တည်နေရာ: " ++ fdGetD fd "last_seen_location" "N/A" ++ "\n") ++
       ("အဆောက်အအုံအခြေအနေ: " ++ fdGetD fd "building_condition" "N/A" ++ "\n") ++
       ("ဒဏ်ရာရရှိမှု: " ++ fdGetD fd "injuries" "N/A" ++ "\n") ++
       ("ဆက်နွယ်မှု: " ++ fdGetD fd "relationship" "N/A" ++ "\n") ++
       ("ဆက်သွယ်ရန်အချက်အလက်: " ++ fdGetD fd "contact_info" "N/A" ++ "\n"))
      "တိကျသော တည်နေရာ: " fd
  else if rt = "Offer Help" then
    addCoordLine
      (("အမည်: " ++ fdGetD fd "name" "N/A" ++ "\n") ++
       ("ပေးဆောင်နိုင်သည့် အကူအညီအမျိုးအစား: " ++ fdGetD fd "help_type" "N/A" ++ "\n") ++
       ("ရရှိနိုင်သော အရင်းအမြစ်များ: " ++ fdGetD fd "resources" "N/A" ++ "\n") ++
       ("ရရှိနိုင်သည့် အချိန်: " ++ fdGetD fd "availability" "N/A" ++ "\n") ++
       ("ဆက်သွယ်ရန်အချက်အလက်: " ++ fdGetD fd "contact_info" "N/A" ++ "\n"))
      "တိကျသော တည်နေရာ: " fd
  else
    String.intercalate "\n" (fd.map (fun p => p.1 ++ ": " ++ p.2))

/-- Specification-side renderer: renders a fixed list of labelled fields
in order, each missing field as the N/A placeholder.  This is the second,
clearly named definition following the words of the spec, used to compare
with the code-side compile_all_data. -/
def specRenderFields (fields : List (String × String)) (fd : AList String) : String :=
  match fields with
  | [] => ""
  | lk :: rest => lk.1 ++ fdGetD fd lk.2 "N/A" ++ "\n" ++ specRenderFields rest fd

/-- Specification-side fixed per-type field order: label prefix and field
key per report type. -/
def specFieldOrder (rt : String) : List (String × String) :=
  if rt = "Missing Person (Earthquake)" then
    [("အမည်: ", "name"), ("အသက်: ", "age"), ("ကျား/မ: ", "gender"),
     ("ကိုယ်ခန္ဓာဖော်ပြချက်: ", "description"),
     ("နောက်ဆုံးတွေ့ရှိခဲ့သည့်နေရာ: ", "last_seen_location"),
     ("နောက်ဆုံးတွေ့ရှိခဲ့သည့်အချိန်: ", "last_seen_time"),
     ("ဆေးဝါးအခြေအနေ: ", "medical_info"),
     ("ဆက်သွယ်ရန်အချက်အလက်: ", "contact_info")]
  else if rt = "Found Person (Earthquake)" then
    [("တွေ့ရှိသူ၏ အမည်: ", "name"), ("ခန့်မှန်းအသက်: ", "age"),
     ("ကျား/မ: ", "gender"), ("ကိုယ်ခန္ဓာဖော်ပြချက်: ", "description"),
     ("တွေ့ရှိခဲ့သည့်နေရာ: ", "last_seen_location"),
     ("လက်ရှိတည်နေရာ/အခြေအနေ: ", "current_location"),
     ("ဒဏ်ရာရရှိမှု: ", "injuries"),
     ("ဆက်သွယ်ရန်အချက်အလက်: ", "contact_info")]
  else if rt = "Request Rescue" then
    [("ပိတ်မိနေသူ အရေအတွက်: ", "people_count"),
     ("တိကျသော တည်နေရာ: ", "last_seen_location"),
     ("အဆောက်အအုံအခြေအနေ: ", "building_condition"),
     ("ဒဏ်ရာရရှိမှု: ", "injuries"), ("ဆက်နွယ်မှု: ", "relationship"),
     ("ဆက်သွယ်ရန်အချက်အလက်: ", "contact_info")]
  else if rt = "Offer Help" then
    [("အမည်: ", "name"),
     ("ပေးဆောင်နိုင်သည့် အကူအညီအမျိုးအစား: ", "help_type"),
     ("ရရှိနိုင်သော အရင်းအမြစ်များ: ", "resources"),
     ("ရရှိနိုင်သည့် အချိန်: ", "availability"),
     ("ဆက်သွယ်ရန်အချက်အလက်: ", "contact_info")]
  else []

/-- Specification-side label of the coordinate line per report type. -/
def specCoordLabel (rt : String) : String :=
  if rt = "Missing Person (Earthquake)" then "9. တိကျသော တည်နေရာ: "
  else "တိကျသော တည်နေရာ: "

set_option maxRecDepth 8192 in
/-- C8 counterexample: for the same report type, the compiled block of a
form with coordinates differs from the block of a form without them; a
form whose coordinates are the Not provided placeholder compiles to the
very same block as a form lacking the field, and that block contains no
coordinate label at all — the missing optional field is omitted rather
than rendered as a placeholder, so the rendered field set is not the same
for all inputs of the same report type. -/
theorem C8_counterexample :
    compile_all_data "Found Person (Earthquake)" [("exact_coordinates", "16.80,96.15")] ≠
      compile_all_data "Found Person (Earthquake)" [] ∧
    compile_all_data "Found Person (Earthquake)" [("exact_coordinates", "Not provided")] =
      compile_all_data "Found Person (Earthquake)" [] ∧
    strIn "တိကျသော တည်နေရာ" (compile_all_data "Found Person (Earthquake)" []) = false ∧
    strIn "တိကျသော တည်နေရာ"
      (compile_all_data "Found Person (Earthquake)"
        [("exact_coordinates", "16.80,96.15")]) = true := by
  decide

/-- C8 (amended): for each of the four guided report types, compiling the
details block is the pure deterministic function rendering the fixed
per-type field list in a fixed order with the N/A placeholder for each
missing field, followed by a coordinate line that is present only when
coordinates were actually provided (field present and not the Not
provided placeholder) — the coordinate field, unlike the others, is
omitted when missing. -/
theorem C8_compile_amended (rt : String) (fd : AList String)
    (hrt : rt = "Missing Person (Earthquake)" ∨ rt = "Found Person (Earthquake)" ∨
      rt = "Request Rescue" ∨ rt = "Offer Help") :
    compile_all_data rt fd =
      addCoordLine (specRenderFields (specFieldOrder rt) fd) (specCoordLabel rt) fd := by
  rcases hrt with rfl | rfl | rfl | rfl
  · unfold compile_all_data
    rw [if_pos rfl]
    unfold specCoordLabel
    rw [if_pos rfl]
    congr 1
    unfold specFieldOrder
    rw [if_pos rfl]
    apply String.ext
    simp [specRenderFields, strData_append, strData_empty, List.append_assoc]
  · unfold compile_all_data
    rw [if_neg (by decide), if_pos rfl]
    unfold specCoordLabel
    rw [if_neg (by decide)]
    congr 1
    unfold specFieldOrder
    rw [if_neg (by decide), if_pos rfl]
    apply String.ext
    simp [specRenderFields, strData_append, strData_empty, List.append_assoc]
  · unfold compile_all_data
    rw [if_neg (by decide), if_neg (by decide), if_pos rfl]
    unfold specCoordLabel
    rw [if_neg (by decide)]
    congr 1
    unfold specFieldOrder
    rw [if_neg (by decide), if_neg (by decide), if_pos rfl]
    apply String.ext
    simp [specRenderFields, strData_append, strData_empty, List.append_assoc]
  · unfold compile_all_data
    rw [if_neg (by decide), if_neg (by decide), if_neg (by decide), if_pos rfl]
    unfold specCoordLabel
    rw [if_neg (by decide)]
    congr 1
    unfold specFieldOrder
    rw [if_neg (by decide), if_neg (by decide), if_neg (by decide), if_pos rfl]
    apply String.ext
    simp [specRenderFields, strData_append, strData_empty, List.append_assoc]

/-- C8 witness: the amended theorem applied at a concrete Offer Help
form. -/
theorem C8_compile_amended_witness :
    compile_all_data "Offer Help" [("name", "Dr Win"), ("contact_info", "09123456")] =
      addCoordLine
        (specRenderFields (specFieldOrder "Offer Help")
          [("name", "Dr Win"), ("contact_info", "09123456")])
        (specCoordLabel "Offer Help")
        [("name", "Dr Win"), ("contact_info", "09123456")] :=
  C8_compile_amended "Offer Help" [("name", "Dr Win"), ("contact_info", "09123456")]
    (Or.inr (Or.inr (Or.inr rfl)))

end LostFoundBot
